import Mathlib

/-!
Verification of the multi-backend user-repository core of the benchmarks
repository (FastAPI service, `src/database/`): the four storage adapters
(postgres, mongodb, redis, cassandra), their identifier codecs, and the
repository registry.  Each Python function is shallowly embedded as a pure
Lean function; the backing stores are modelled as key-indexed partial maps
and the registry as explicit state passed through each call.
-/

/-! ## Identifier codecs

The adapters delegate id parsing and printing to library code:
`uuid.UUID(s)` / `str(u)` for postgres and cassandra, `bson.ObjectId(s)` /
`str(oid)` for mongodb, and `int(s)` / `str(n)` for the redis
`favoriteNumber` field.  These are modelled on their canonical grammars:
a UUID string is 32 hexadecimal digits once all hyphens are removed
(the stdlib additionally strips optional brace and urn decorations and
inherits the sign laxity of `int(_, 16)`, which nothing in the repository
exercises), an ObjectId string is exactly 24 hexadecimal digits, and an
integer literal is an optional sign followed by decimal digits. -/

/-- Value of one hexadecimal digit character, `none` if not a hex digit. -/
def hexDigitVal (c : Char) : Option Nat :=
  if '0' ≤ c ∧ c ≤ '9' then some (c.toNat - '0'.toNat)
  else if 'a' ≤ c ∧ c ≤ 'f' then some (c.toNat - 'a'.toNat + 10)
  else if 'A' ≤ c ∧ c ≤ 'F' then some (c.toNat - 'A'.toNat + 10)
  else none

/-- Lowercase hexadecimal digit character for a value below 16. -/
def hexChar (n : Nat) : Char :=
  if n < 10 then Char.ofNat ('0'.toNat + n) else Char.ofNat ('a'.toNat + (n - 10))

/-- Fixed-width big-endian hexadecimal rendering (Python `'%032x' % n`). -/
def toHexPad : Nat → Nat → List Char
  | 0, _ => []
  | w + 1, n => toHexPad w (n / 16) ++ [hexChar (n % 16)]

/-- Accumulating hexadecimal reader; fails on the first non-hex character. -/
def ofHexAux : List Char → Nat → Option Nat
  | [], acc => some acc
  | c :: cs, acc =>
    match hexDigitVal c with
    | none => none
    | some d => ofHexAux cs (acc * 16 + d)

/-- Reads a list of hexadecimal digit characters as a natural number. -/
def ofHex (cs : List Char) : Option Nat := ofHexAux cs 0

/-- Value of one decimal digit character, `none` if not a decimal digit. -/
def decDigitVal (c : Char) : Option Nat :=
  if '0' ≤ c ∧ c ≤ '9' then some (c.toNat - '0'.toNat) else none

/-- Accumulating decimal reader; fails on the first non-decimal character. -/
def ofDecAux : List Char → Nat → Option Nat
  | [], acc => some acc
  | c :: cs, acc =>
    match decDigitVal c with
    | none => none
    | some d => ofDecAux cs (acc * 10 + d)

/-- Reads a nonempty list of decimal digit characters as a natural number. -/
def ofDec (cs : List Char) : Option Nat :=
  match cs with
  | [] => none
  | _ => ofDecAux cs 0

/-- Python `int(s)` on the canonical integer grammar: optional sign then
decimal digits (surrounding whitespace and underscore separators, which the
repository never stores, are not modelled). -/
def pyIntParse (s : String) : Option Int :=
  match s.data with
  | '-' :: ds => (ofDec ds).map (fun n => -(n : Int))
  | '+' :: ds => (ofDec ds).map (fun n => (n : Int))
  | ds => (ofDec ds).map (fun n => (n : Int))

/-- Inserts the canonical 8-4-4-4-12 hyphens of `str(uuid.UUID)` into a list
of 32 characters. -/
def hyphenate (cs : List Char) : List Char :=
  cs.take 8 ++ ['-'] ++ (cs.drop 8).take 4 ++ ['-'] ++ (cs.drop 12).take 4
    ++ ['-'] ++ (cs.drop 16).take 4 ++ ['-'] ++ cs.drop 20

/-- `str(u)` for a `uuid.UUID` whose integer value is `n`. -/
def strUuid (n : Nat) : String := String.mk (hyphenate (toHexPad 32 n))

/-- `PostgresUserRepository._parse_uuid` / `CassandraUserRepository._parse_uuid`:
`uuid.UUID(s)` downgraded to `none` on parse failure.  The stdlib removes all
hyphens and requires the remaining 32 characters to be hexadecimal. -/
def parse_uuid (s : String) : Option Nat :=
  let hexs := s.data.filter (fun c => c != '-')
  if hexs.length = 32 then ofHex hexs else none

/-- `str(oid)` for a `bson.ObjectId` whose 12-byte value is `n`. -/
def strObjectId (n : Nat) : String := String.mk (toHexPad 24 n)

/-- `MongoUserRepository._parse_object_id`: `bson.ObjectId(s)` downgraded to
`none` on failure; valid exactly when `s` is 24 hexadecimal characters. -/
def parse_object_id (s : String) : Option Nat :=
  if s.data.length = 24 then ofHex s.data else none

/-! ### Codec round-trip lemmas -/

theorem hexDigitVal_hexChar : ∀ n, n < 16 → hexDigitVal (hexChar n) = some n := by
  decide

theorem hexChar_ne_hyphen : ∀ n, n < 16 → hexChar n ≠ '-' := by
  decide

theorem length_toHexPad (w : Nat) : ∀ n, (toHexPad w n).length = w := by
  induction w with
  | zero => intro n; rfl
  | succ w ih =>
    intro n
    simp [toHexPad, ih]

theorem mem_toHexPad (w : Nat) :
    ∀ n c, c ∈ toHexPad w n → ∃ d, d < 16 ∧ c = hexChar d := by
  induction w with
  | zero => intro n c h; simp [toHexPad] at h
  | succ w ih =>
    intro n c h
    simp only [toHexPad, List.mem_append, List.mem_singleton] at h
    rcases h with h | h
    · exact ih _ c h
    · exact ⟨n % 16, Nat.mod_lt _ (by norm_num), h⟩

theorem ofHexAux_append (xs ys : List Char) (a : Nat) :
    ofHexAux (xs ++ ys) a =
      match ofHexAux xs a with
      | none => none
      | some b => ofHexAux ys b := by
  induction xs generalizing a with
  | nil => rfl
  | cons c cs ih =>
    simp only [List.cons_append, ofHexAux]
    cases hexDigitVal c with
    | none => rfl
    | some d => exact ih _

theorem ofHexAux_toHexPad (w : Nat) :
    ∀ n a, ofHexAux (toHexPad w n) a = some (a * 16 ^ w + n % 16 ^ w) := by
  induction w with
  | zero => intro n a; simp [toHexPad, ofHexAux, Nat.mod_one]
  | succ w ih =>
    intro n a
    rw [toHexPad, ofHexAux_append, ih]
    simp only [ofHexAux, hexDigitVal_hexChar (n % 16) (Nat.mod_lt _ (by norm_num))]
    congr 1
    have h16 : (16 : Nat) ^ (w + 1) = 16 ^ w * 16 := pow_succ 16 w
    have hmod : n % 16 ^ (w + 1) = n % 16 + 16 * (n / 16 % 16 ^ w) := by
      rw [h16, Nat.mul_comm (16 ^ w) 16, Nat.mod_mul]
    rw [hmod, h16]
    ring

theorem ofHex_toHexPad (w n : Nat) (h : n < 16 ^ w) : ofHex (toHexPad w n) = some n := by
  rw [ofHex, ofHexAux_toHexPad]
  simp [Nat.mod_eq_of_lt h]

theorem filter_toHexPad (w n : Nat) :
    (toHexPad w n).filter (fun c => c != '-') = toHexPad w n := by
  rw [List.filter_eq_self]
  intro c hc
  obtain ⟨d, hd, rfl⟩ := mem_toHexPad w n c hc
  simpa using hexChar_ne_hyphen d hd

theorem filter_hyphenate (cs : List Char) (h : ∀ c ∈ cs, c ≠ '-') :
    (hyphenate cs).filter (fun c => c != '-') = cs := by
  have hseg : ∀ ds : List Char, (∀ c ∈ ds, c ≠ '-') →
      ds.filter (fun c => c != '-') = ds := by
    intro ds hds
    rw [List.filter_eq_self]
    intro c hc
    simpa using hds c hc
  have hsub : ∀ i j : Nat, ∀ c ∈ (cs.drop i).take j, c ≠ '-' := by
    intro i j c hc
    exact h c (List.mem_of_mem_drop (List.mem_of_mem_take hc))
  have htake : ∀ j : Nat, ∀ c ∈ cs.take j, c ≠ '-' := by
    intro j c hc
    exact h c (List.mem_of_mem_take hc)
  have hdrop : ∀ i : Nat, ∀ c ∈ cs.drop i, c ≠ '-' := by
    intro i c hc
    exact h c (List.mem_of_mem_drop hc)
  simp only [hyphenate, List.filter_append]
  rw [hseg _ (htake 8), hseg _ (hsub 8 4), hseg _ (hsub 12 4), hseg _ (hsub 16 4),
    hseg _ (hdrop 20)]
  have hhy : List.filter (fun c => c != '-') ['-'] = [] := by decide
  rw [hhy]
  simp only [List.nil_append, List.append_nil]
  have h8 : cs.take 8 ++ ((cs.drop 8).take 4 ++ ((cs.drop 12).take 4 ++
      ((cs.drop 16).take 4 ++ cs.drop 20))) = cs := by
    have d8 : (cs.drop 8).drop 4 = cs.drop 12 := by
      rw [List.drop_drop]
    have d12 : (cs.drop 12).drop 4 = cs.drop 16 := by
      rw [List.drop_drop]
    have d16 : (cs.drop 16).drop 4 = cs.drop 20 := by
      rw [List.drop_drop]
    conv_rhs => rw [← List.take_append_drop 8 cs]
    congr 1
    conv_rhs => rw [← List.take_append_drop 4 (cs.drop 8)]
    rw [d8]
    congr 1
    conv_rhs => rw [← List.take_append_drop 4 (cs.drop 12)]
    rw [d12]
    congr 1
    conv_rhs => rw [← List.take_append_drop 4 (cs.drop 16)]
    rw [d16]
  simpa using h8

theorem parse_uuid_strUuid (n : Nat) (h : n < 16 ^ 32) : parse_uuid (strUuid n) = some n := by
  have hmem : ∀ c ∈ toHexPad 32 n, c ≠ '-' := by
    intro c hc
    obtain ⟨d, hd, rfl⟩ := mem_toHexPad 32 n c hc
    exact hexChar_ne_hyphen d hd
  have hfil : (hyphenate (toHexPad 32 n)).filter (fun c => c != '-') = toHexPad 32 n :=
    filter_hyphenate _ hmem
  simp only [parse_uuid, strUuid, hfil, length_toHexPad, if_true]
  exact ofHex_toHexPad 32 n h

theorem parse_object_id_strObjectId (n : Nat) (h : n < 16 ^ 24) :
    parse_object_id (strObjectId n) = some n := by
  simp only [parse_object_id, strObjectId, length_toHexPad, if_true]
  exact ofHex_toHexPad 24 n h

theorem pyIntParse_toString_ball :
    ∀ k, k < 101 → pyIntParse (toString ((k : Nat) : Int)) = some ((k : Nat) : Int) := by
  decide

theorem pyIntParse_toString (n : Int) (h0 : 0 ≤ n) (h1 : n ≤ 100) :
    pyIntParse (toString n) = some n := by
  have hk : n = ((n.toNat : Nat) : Int) := (Int.toNat_of_nonneg h0).symm
  rw [hk]
  apply pyIntParse_toString_ball
  omega

/-! ## Data model (`src/database/types.py`)

Pydantic validation of `CreateUser`/`UpdateUser` is the HTTP layer's
responsibility; the constraints its field annotations encode are captured
by the `Valid` predicates below. -/

/-- `types.User`. -/
structure User where
  id : String
  name : String
  email : String
  favoriteNumber : Option Int
deriving DecidableEq

/-- `types.CreateUser`. -/
structure CreateUser where
  name : String
  email : String
  favoriteNumber : Option Int
deriving DecidableEq

/-- `types.UpdateUser`: absent fields are `none`. -/
structure UpdateUser where
  name : Option String
  email : Option String
  favoriteNumber : Option Int
deriving DecidableEq

/-- `types.build_user`. -/
def build_user (id : String) (data : CreateUser) : User :=
  ⟨id, data.name, data.email, data.favoriteNumber⟩

/-- The pydantic field constraints on `CreateUser`: `name` has min length 1
and `favoriteNumber` lies in `[0, 100]` when present. -/
def CreateUser.Valid (d : CreateUser) : Prop :=
  1 ≤ d.name.length ∧ ∀ n ∈ d.favoriteNumber, 0 ≤ n ∧ n ≤ 100

/-- The pydantic field constraints on `UpdateUser`. -/
def UpdateUser.Valid (d : UpdateUser) : Prop :=
  (∀ s ∈ d.name, 1 ≤ s.length) ∧ ∀ n ∈ d.favoriteNumber, 0 ≤ n ∧ n ≤ 100

/-- The `if field is not None: target = field` idiom of the update methods. -/
def mergeField {α : Type} (patch old : Option α) : Option α :=
  match patch with
  | some v => some v
  | none => old

/-- The empty patch (an `UpdateUser` with no field set). -/
def emptyPatch : UpdateUser := ⟨none, none, none⟩

/-! ## Postgres adapter (`src/database/postgres.py`)

The `users` table is a partial map from the UUID primary key to the row's
payload columns; primary-key uniqueness is intrinsic to the representation.
Theorems about `create` assume the generated `uuid7` is absent from the
table (a duplicate primary key would make the store fault). -/

namespace Postgres

/-- The payload columns of `UserModel`. -/
structure Row where
  name : String
  email : String
  favorite_number : Option Int
deriving DecidableEq

/-- The `users` table keyed by the UUID primary key. -/
def Store : Type := Nat → Option Row

/-- `UserModel.to_user`. -/
def to_user (id : Nat) (r : Row) : User :=
  ⟨strUuid id, r.name, r.email, r.favorite_number⟩

/-- `PostgresUserRepository.create` with `gid` the `uuid.uuid7()` value. -/
def create (st : Store) (gid : Nat) (data : CreateUser) : User × Store :=
  let row : Row := ⟨data.name, data.email, data.favoriteNumber⟩
  (to_user gid row, fun k => if k = gid then some row else st k)

/-- `PostgresUserRepository.find_by_id`. -/
def find_by_id (st : Store) (id : String) : Option User :=
  match parse_uuid id with
  | none => none
  | some u => (st u).map (to_user u)

/-- `PostgresUserRepository.update`. -/
def update (st : Store) (id : String) (data : UpdateUser) : Option User × Store :=
  match parse_uuid id with
  | none => (none, st)
  | some u =>
    match st u with
    | none => (none, st)
    | some row =>
      let row' : Row := ⟨data.name.getD row.name, data.email.getD row.email,
        mergeField data.favoriteNumber row.favorite_number⟩
      (some (to_user u row'), fun k => if k = u then some row' else st k)

/-- `PostgresUserRepository.delete`: the `DELETE ... WHERE id = %s` rowcount
is 1 when the primary key is present and 0 otherwise. -/
def delete (st : Store) (id : String) : Bool × Store :=
  match parse_uuid id with
  | none => (false, st)
  | some u =>
    match st u with
    | none => (false, st)
    | some _ => (true, fun k => if k = u then none else st k)

/-- `PostgresUserRepository.delete_all`. -/
def delete_all (_st : Store) : Store := fun _ => none

/-- `PostgresUserRepository.health_check`: the try-block opens a session and
runs `SELECT 1`; any fault in either step is downgraded to `false`. -/
def health_check (sess : Except String Unit) (probe : Except String Unit) : Bool :=
  match sess with
  | Except.error _ => false
  | Except.ok _ =>
    match probe with
    | Except.error _ => false
    | Except.ok _ => true

end Postgres

/-! ## MongoDB adapter (`src/database/mongodb.py`)

The `users` collection is a partial map from the ObjectId value to the
document payload; a document's `favoriteNumber` field is absent exactly
when the payload holds `none` (`doc.get` then yields `None`). -/

namespace Mongo

/-- Payload of a `users` document apart from `_id`. -/
structure Doc where
  name : String
  email : String
  favoriteNumber : Option Int
deriving DecidableEq

/-- The `users` collection keyed by ObjectId. -/
def Store : Type := Nat → Option Doc

/-- `MongoUserRepository._to_user`. -/
def to_user (oid : Nat) (doc : Doc) : User :=
  ⟨strObjectId oid, doc.name, doc.email, doc.favoriteNumber⟩

/-- `MongoUserRepository.create` with `gid` the pre-generated `ObjectId()`. -/
def create (st : Store) (gid : Nat) (data : CreateUser) : User × Store :=
  (build_user (strObjectId gid) data,
    fun k => if k = gid then some ⟨data.name, data.email, data.favoriteNumber⟩ else st k)

/-- `MongoUserRepository.find_by_id`. -/
def find_by_id (st : Store) (id : String) : Option User :=
  match parse_object_id id with
  | none => none
  | some oid => (st oid).map (to_user oid)

/-- `MongoUserRepository.update`: an empty `$set` dictionary short-circuits
to `find_by_id`; otherwise `find_one_and_update` atomically applies the set
and returns the post-update document. -/
def update (st : Store) (id : String) (data : UpdateUser) : Option User × Store :=
  match parse_object_id id with
  | none => (none, st)
  | some oid =>
    if data.name = none ∧ data.email = none ∧ data.favoriteNumber = none then
      (find_by_id st id, st)
    else
      match st oid with
      | none => (none, st)
      | some doc =>
        let doc' : Doc := ⟨mergeField data.name (some doc.name) |>.getD doc.name,
          mergeField data.email (some doc.email) |>.getD doc.email,
          mergeField data.favoriteNumber doc.favoriteNumber⟩
        (some (to_user oid doc'), fun k => if k = oid then some doc' else st k)

/-- `MongoUserRepository.delete`: `deleted_count > 0` iff the document was
present. -/
def delete (st : Store) (id : String) : Bool × Store :=
  match parse_object_id id with
  | none => (false, st)
  | some oid =>
    match st oid with
    | none => (false, st)
    | some _ => (true, fun k => if k = oid then none else st k)

/-- `MongoUserRepository.delete_all`. -/
def delete_all (_st : Store) : Store := fun _ => none

/-- `MongoUserRepository.health_check`: connect then `ping`, any fault
downgraded to `false`. -/
def health_check (conn : Except String Unit) (ping : Except String Unit) : Bool :=
  match conn with
  | Except.error _ => false
  | Except.ok _ =>
    match ping with
    | Except.error _ => false
    | Except.ok _ => true

end Mongo

/-! ## Redis adapter (`src/database/redis_repo.py`)

The store is a partial map from full redis keys (already carrying the
`"user:"` namespace) to hashes whose field values are strings; a hash field
is absent exactly when the corresponding component is `none`.  `hset` with a
mapping merges the given fields into the hash at the key, creating it if
absent. -/

namespace Redis

/-- A redis hash holding the three user fields, each possibly absent. -/
structure Hash where
  name : Option String
  email : Option String
  favoriteNumber : Option String
deriving DecidableEq

/-- The keyspace as a partial map from keys to hashes. -/
def Store : Type := String → Option Hash

/-- `RedisUserRepository._key`. -/
def key (id : String) : String := "user:" ++ id

/-- `RedisUserRepository.create` with `gid` the `str(uuid.uuid7())` value:
`hset` writes `name`, `email` and, when present, the decimal string of
`favoriteNumber`; fields not in the mapping keep any prior value. -/
def create (st : Store) (gid : String) (data : CreateUser) : User × Store :=
  let merged : Hash := ⟨some data.name, some data.email,
    mergeField (data.favoriteNumber.map toString) ((st (key gid)).bind Hash.favoriteNumber)⟩
  (build_user gid data, fun k => if k = key gid then some merged else st k)

/-- `RedisUserRepository.find_by_id`: `exists` then `hmget`; a missing
`name` or `email` field, or a `favoriteNumber` field that does not parse as
an integer, yields `none`. -/
def find_by_id (st : Store) (id : String) : Option User :=
  match st (key id) with
  | none => none
  | some h =>
    match h.name, h.email with
    | some name, some email =>
      match h.favoriteNumber with
      | none => some ⟨id, name, email, none⟩
      | some s =>
        match pyIntParse s with
        | none => none
        | some n => some ⟨id, name, email, some n⟩
    | _, _ => none

/-- `RedisUserRepository.update`: `exists` check, then `hset` of the present
patch fields (skipped when the field dictionary is empty), then a re-read
through `find_by_id`. -/
def update (st : Store) (id : String) (data : UpdateUser) : Option User × Store :=
  match st (key id) with
  | none => (none, st)
  | some h =>
    let st' : Store :=
      if data.name = none ∧ data.email = none ∧ data.favoriteNumber = none then st
      else
        let h' : Hash := ⟨mergeField data.name h.name, mergeField data.email h.email,
          mergeField (data.favoriteNumber.map toString) h.favoriteNumber⟩
        fun k => if k = key id then some h' else st k
    (find_by_id st' id, st')

/-- `RedisUserRepository.delete`: `delete` returns the number of keys
removed, so the result is `deleted > 0`. -/
def delete (st : Store) (id : String) : Bool × Store :=
  match st (key id) with
  | none => (false, st)
  | some _ => (true, fun k => if k = key id then none else st k)

/-- `RedisUserRepository.health_check`: connect then `ping`, any fault
downgraded to `false`. -/
def health_check (conn : Except String Unit) (ping : Except String Unit) : Bool :=
  match conn with
  | Except.error _ => false
  | Except.ok _ =>
    match ping with
    | Except.error _ => false
    | Except.ok _ => true

end Redis

/-! ## Cassandra adapter (`src/database/cassandra.py`)

The `users` table is a partial map from the UUID primary key to the payload
columns.  Cassandra `INSERT` and `UPDATE` are upserts that write only the
named columns, which the embedding reflects. -/

namespace Cassandra

/-- Payload columns of the `users` table. -/
structure Row where
  name : String
  email : String
  favorite_number : Option Int
deriving DecidableEq

/-- The `users` table keyed by the UUID primary key. -/
def Store : Type := Nat → Option Row

/-- `CassandraUserRepository.create` with `gid` the `uuid.uuid7()` value:
when `favoriteNumber` is absent the `INSERT` names only `id, name, email`,
so `favorite_number` keeps any prior value (null for a fresh id). -/
def create (st : Store) (gid : Nat) (data : CreateUser) : User × Store :=
  let st' : Store :=
    match data.favoriteNumber with
    | some n => fun k => if k = gid then some ⟨data.name, data.email, some n⟩ else st k
    | none =>
      let oldFav := (st gid).bind Row.favorite_number
      fun k => if k = gid then some ⟨data.name, data.email, oldFav⟩ else st k
  (⟨strUuid gid, data.name, data.email, data.favoriteNumber⟩, st')

/-- `CassandraUserRepository.find_by_id`. -/
def find_by_id (st : Store) (id : String) : Option User :=
  match parse_uuid id with
  | none => none
  | some u =>
    match st u with
    | none => none
    | some row => some ⟨strUuid u, row.name, row.email, row.favorite_number⟩

/-- `CassandraUserRepository.update`: the source re-reads through
`find_by_id id` (inlined here on the already-parsed key, as `parse_uuid` is
deterministic), mutates the present fields on the read `User`, and when any
field is present writes those columns back with an upserting `UPDATE`. -/
def update (st : Store) (id : String) (data : UpdateUser) : Option User × Store :=
  match parse_uuid id with
  | none => (none, st)
  | some u =>
    match st u with
    | none => (none, st)
    | some row =>
      let existing : User := ⟨strUuid u, row.name, row.email, row.favorite_number⟩
      if data.name = none ∧ data.email = none ∧ data.favoriteNumber = none then
        (some existing, st)
      else
        let patched : User := ⟨existing.id, data.name.getD existing.name,
          data.email.getD existing.email, mergeField data.favoriteNumber existing.favoriteNumber⟩
        (some patched,
          fun k => if k = u then some ⟨patched.name, patched.email, patched.favoriteNumber⟩ else st k)

/-- `CassandraUserRepository.delete`: existence check through `find_by_id`
(inlined on the parsed key), then an unconditional `DELETE`. -/
def delete (st : Store) (id : String) : Bool × Store :=
  match parse_uuid id with
  | none => (false, st)
  | some u =>
    match st u with
    | none => (false, st)
    | some _ => (true, fun k => if k = u then none else st k)

/-- `CassandraUserRepository.delete_all` (`TRUNCATE users`). -/
def delete_all (_st : Store) : Store := fun _ => none

/-- `CassandraUserRepository.health_check`: `_execute` connects and runs the
probe query; any fault in either step is downgraded to `false`. -/
def health_check (conn : Except String Unit) (probe : Except String Unit) : Bool :=
  match conn with
  | Except.error _ => false
  | Except.ok _ =>
    match probe with
    | Except.error _ => false
    | Except.ok _ => true

end Cassandra

/-! ## Registry and lifecycle (`src/database/repository.py`)

`_repositories` is a Python dict from backend tag to adapter instance;
instances are identified by the value of a construction counter, so two
constructions never yield the same instance.  `get_repository` is a
synchronous function with no await point, so under the cooperative
single-threaded scheduler every call runs atomically: any set of
concurrent calls executes as some interleaving of whole calls, which
`runResolves` captures. -/

/-- `DATABASE_TYPES`. -/
def DATABASE_TYPES : List String := ["postgres", "mongodb", "redis", "cassandra"]

/-- The module state: the `_repositories` dict (insertion-ordered, as a
Python dict) and the construction counter giving instances their identity. -/
structure RegState where
  repos : List (String × Nat)
  nextInst : Nat
deriving DecidableEq

/-- The state at process start: empty registry. -/
def regStart : RegState := ⟨[], 0⟩

/-- `_repositories[database] = repo` on a key known to be absent. -/
def insertRepo (st : RegState) (database : String) : RegState :=
  ⟨st.repos ++ [(database, st.nextInst)], st.nextInst + 1⟩

/-- `get_repository`: memoized lookup, then one construction branch per
backend tag, else the `ValueError` raise. -/
def get_repository (database : String) (st : RegState) : Except String (Nat × RegState) :=
  match st.repos.lookup database with
  | some repo => Except.ok (repo, st)
  | none =>
    if database = "postgres" then Except.ok (st.nextInst, insertRepo st database)
    else if database = "mongodb" then Except.ok (st.nextInst, insertRepo st database)
    else if database = "redis" then Except.ok (st.nextInst, insertRepo st database)
    else if database = "cassandra" then Except.ok (st.nextInst, insertRepo st database)
    else Except.error ("Unknown database type: " ++ database)

/-- `resolve_repository`: membership guard, then `get_repository`. -/
def resolve_repository (database : String) (st : RegState) :
    Except String (Option Nat × RegState) :=
  if database ∈ DATABASE_TYPES then
    match get_repository database st with
    | Except.ok (repo, st') => Except.ok (some repo, st')
    | Except.error e => Except.error e
  else
    Except.ok (none, st)

/-- State after one `resolve_repository` call (a raised error, which never
happens, would leave the state as is). -/
def resolveStep (st : RegState) (tag : String) : RegState :=
  match resolve_repository tag st with
  | Except.ok (_, st') => st'
  | Except.error _ => st

/-- State after a sequence of `resolve_repository` calls; since
`get_repository` has no suspension point, every concurrent schedule of
calls executes as such a sequence. -/
def runResolves (tags : List String) (st : RegState) : RegState :=
  tags.foldl resolveStep st

/-- Number of registry entries carrying a given tag. -/
def countTag (st : RegState) (tag : String) : Nat :=
  (st.repos.map Prod.fst).count tag

/-- Outcome of one run of `disconnect_databases`: whether it raised, the
final module state, and the adapter instances whose `disconnect` ran, in
order. -/
structure DisconnectRun where
  outcome : Except String Unit
  final : RegState
  disconnected : List Nat

/-- The `for repo in _repositories.values(): await repo.disconnect()` loop,
with `beh` giving each instance's disconnect outcome; an exception
propagates out of the loop at once. -/
def disconnectLoop (beh : Nat → Except String Unit) :
    List (String × Nat) → List Nat → Except String Unit × List Nat
  | [], done => (Except.ok (), done)
  | (_, repo) :: rest, done =>
    match beh repo with
    | Except.ok _ => disconnectLoop beh rest (done ++ [repo])
    | Except.error e => (Except.error e, done)

/-- `disconnect_databases`: the loop, then `_repositories.clear()`; a raised
disconnect fault skips the clear and propagates. -/
def disconnect_databases (beh : Nat → Except String Unit) (st : RegState) : DisconnectRun :=
  match disconnectLoop beh st.repos [] with
  | (Except.ok _, done) => ⟨Except.ok (), ⟨[], st.nextInst⟩, done⟩
  | (Except.error e, done) => ⟨Except.error e, st, done⟩

/-! ### Registry lemmas -/

theorem lookup_none_count (l : List (String × Nat)) (tag : String)
    (h : l.lookup tag = none) : (l.map Prod.fst).count tag = 0 := by
  induction l with
  | nil => rfl
  | cons p rest ih =>
    obtain ⟨k, v⟩ := p
    by_cases hk : tag = k
    · subst hk
      simp [List.lookup] at h
    · rw [List.lookup] at h
      have hbeq : (tag == k) = false := beq_false_of_ne hk
      rw [hbeq] at h
      simp only [List.map_cons, List.count_cons]
      rw [ih h]
      simp [Ne.symm hk]

theorem lookup_append_self (l : List (String × Nat)) (tag : String) (v : Nat)
    (h : l.lookup tag = none) : (l ++ [(tag, v)]).lookup tag = some v := by
  induction l with
  | nil => simp [List.lookup]
  | cons p rest ih =>
    obtain ⟨k, w⟩ := p
    rw [List.lookup] at h
    cases hbeq : (tag == k) with
    | true => rw [hbeq] at h; cases h
    | false =>
      rw [hbeq] at h
      simp only [List.cons_append, List.lookup, hbeq]
      exact ih h

theorem count_append_tag (l : List (String × Nat)) (tag t : String) (v : Nat) :
    ((l ++ [(tag, v)]).map Prod.fst).count t
      = (l.map Prod.fst).count t + (if t = tag then 1 else 0) := by
  by_cases htag : t = tag <;> simp [List.count_append, htag]

/-! ## Claim theorems -/

/-- C2: for every backend adapter and every id string, `update` with an
`UpdateUser` whose fields are all absent leaves the store unchanged and
returns exactly what `find_by_id` returns for that id: the current `User`
when one exists, `none` otherwise. -/
theorem C2_update_empty_patch_noop :
    (∀ (st : Postgres.Store) (id : String),
      (Postgres.update st id emptyPatch).1 = Postgres.find_by_id st id ∧
      ∀ k, (Postgres.update st id emptyPatch).2 k = st k) ∧
    (∀ (st : Mongo.Store) (id : String),
      Mongo.update st id emptyPatch = (Mongo.find_by_id st id, st)) ∧
    (∀ (st : Redis.Store) (id : String),
      Redis.update st id emptyPatch = (Redis.find_by_id st id, st)) ∧
    (∀ (st : Cassandra.Store) (id : String),
      (Cassandra.update st id emptyPatch).1 = Cassandra.find_by_id st id ∧
      (Cassandra.update st id emptyPatch).2 = st) := by
  refine ⟨?_, ?_, ?_, ?_⟩
  · intro st id
    cases hp : parse_uuid id with
    | none => simp [Postgres.update, Postgres.find_by_id, hp]
    | some u =>
      cases hs : st u with
      | none => simp [Postgres.update, Postgres.find_by_id, hp, hs]
      | some row =>
        cases row with
        | mk name email fav =>
          constructor
          · simp [Postgres.update, Postgres.find_by_id, hp, hs, emptyPatch, mergeField]
          · intro k
            by_cases hk : k = u
            · subst hk
              simp [Postgres.update, hp, hs, emptyPatch, mergeField]
            · simp [Postgres.update, hp, hs, emptyPatch, mergeField, hk]
  · intro st id
    cases hp : parse_object_id id with
    | none => simp [Mongo.update, Mongo.find_by_id, hp]
    | some oid => simp [Mongo.update, hp, emptyPatch]
  · intro st id
    cases hs : st (Redis.key id) with
    | none => simp [Redis.update, Redis.find_by_id, hs]
    | some h => simp [Redis.update, hs, emptyPatch]
  · intro st id
    cases hp : parse_uuid id with
    | none => simp [Cassandra.update, Cassandra.find_by_id, hp]
    | some u =>
      cases hs : st u with
      | none => simp [Cassandra.update, Cassandra.find_by_id, hp, hs]
      | some row => simp [Cassandra.update, Cassandra.find_by_id, hp, hs, emptyPatch]

/-- C3: for each parsing backend, `find_by_id` on a string that does not
parse as the native id format returns `none`, and a well-formed id with no
matching row also returns `none`, so the two are indistinguishable; for the
redis adapter a stored `favoriteNumber` string that does not parse as an
integer likewise makes `find_by_id` return `none`. -/
theorem C3_malformed_id_is_not_found :
    (∀ (st : Postgres.Store) (s : String), parse_uuid s = none →
      Postgres.find_by_id st s = none) ∧
    (∀ (st : Postgres.Store) (s : String) (u : Nat), parse_uuid s = some u → st u = none →
      Postgres.find_by_id st s = none) ∧
    (∀ (st : Mongo.Store) (s : String), parse_object_id s = none →
      Mongo.find_by_id st s = none) ∧
    (∀ (st : Mongo.Store) (s : String) (oid : Nat), parse_object_id s = some oid →
      st oid = none → Mongo.find_by_id st s = none) ∧
    (∀ (st : Cassandra.Store) (s : String), parse_uuid s = none →
      Cassandra.find_by_id st s = none) ∧
    (∀ (st : Cassandra.Store) (s : String) (u : Nat), parse_uuid s = some u → st u = none →
      Cassandra.find_by_id st s = none) ∧
    (∀ (st : Redis.Store) (id : String) (h : Redis.Hash) (s : String),
      st (Redis.key id) = some h → h.favoriteNumber = some s → pyIntParse s = none →
      Redis.find_by_id st id = none) := by
  refine ⟨?_, ?_, ?_, ?_, ?_, ?_, ?_⟩
  · intro st s hp; simp [Postgres.find_by_id, hp]
  · intro st s u hp hs; simp [Postgres.find_by_id, hp, hs]
  · intro st s hp; simp [Mongo.find_by_id, hp]
  · intro st s oid hp hs; simp [Mongo.find_by_id, hp, hs]
  · intro st s hp; simp [Cassandra.find_by_id, hp]
  · intro st s u hp hs; simp [Cassandra.find_by_id, hp, hs]
  · intro st id h s hst hfav hparse
    cases hn : h.name with
    | none => simp [Redis.find_by_id, hst, hn]
    | some nm =>
      cases he : h.email with
      | none => simp [Redis.find_by_id, hst, hn, he]
      | some em => simp [Redis.find_by_id, hst, hn, he, hfav, hparse]

/-- Witness for C3 at concrete inputs: the string from the spec's test
scenario fails both codecs, a syntactically valid id misses an empty
store, and a redis hash with `favoriteNumber` stored as `"abc"` decodes to
`none`. -/
theorem C3_malformed_id_is_not_found_witness :
    Postgres.find_by_id (fun _ => none) "not-a-valid-id-format" = none ∧
    Postgres.find_by_id (fun _ => none) (strUuid 7) = none ∧
    Mongo.find_by_id (fun _ => none) "not-a-valid-id-format" = none ∧
    Mongo.find_by_id (fun _ => none) (strObjectId 7) = none ∧
    Cassandra.find_by_id (fun _ => none) "not-a-valid-id-format" = none ∧
    Cassandra.find_by_id (fun _ => none) (strUuid 7) = none ∧
    Redis.find_by_id
      (fun k => if k = Redis.key "u1" then some ⟨some "Ada", some "ada@x.io", some "abc"⟩ else none)
      "u1" = none := by
  refine ⟨?_, ?_, ?_, ?_, ?_, ?_, ?_⟩
  · exact C3_malformed_id_is_not_found.1 _ _ (by decide)
  · exact C3_malformed_id_is_not_found.2.1 _ _ 7 (by decide) rfl
  · exact C3_malformed_id_is_not_found.2.2.1 _ _ (by decide)
  · exact C3_malformed_id_is_not_found.2.2.2.1 _ _ 7 (by decide) rfl
  · exact C3_malformed_id_is_not_found.2.2.2.2.1 _ _ (by decide)
  · exact C3_malformed_id_is_not_found.2.2.2.2.2.1 _ _ 7 (by decide) rfl
  · exact C3_malformed_id_is_not_found.2.2.2.2.2.2 _ "u1" ⟨some "Ada", some "ada@x.io", some "abc"⟩
      "abc" (by simp) rfl (by decide)

/-- C7: `resolve_repository` on a string that is not one of the four known
backend tags returns `none` without raising, constructs no adapter, and
leaves the registry state exactly as it was. -/
theorem C7_unknown_backend_no_side_effects :
    ∀ (database : String) (st : RegState), database ∉ DATABASE_TYPES →
      resolve_repository database st = Except.ok (none, st) := by
  intro database st h
  simp [resolve_repository, h]

/-- Witness for C7: the spec's concrete scenario tag against the start
state. -/
theorem C7_unknown_backend_no_side_effects_witness :
    resolve_repository "not-a-backend" regStart = Except.ok (none, regStart) :=
  C7_unknown_backend_no_side_effects "not-a-backend" regStart (by decide)

/-- C9: for every backend adapter, `health_check` is a total boolean
function of the outcomes of its connection and probe steps (the try/except
downgrades every fault to a return value): it returns `true` exactly when
both steps succeed and `false` on any fault. -/
theorem C9_health_check_total_boolean :
    (∀ sess probe, Postgres.health_check sess probe = true ↔
      sess = Except.ok () ∧ probe = Except.ok ()) ∧
    (∀ conn ping, Mongo.health_check conn ping = true ↔
      conn = Except.ok () ∧ ping = Except.ok ()) ∧
    (∀ conn ping, Redis.health_check conn ping = true ↔
      conn = Except.ok () ∧ ping = Except.ok ()) ∧
    (∀ conn probe, Cassandra.health_check conn probe = true ↔
      conn = Except.ok () ∧ probe = Except.ok ()) := by
  refine ⟨?_, ?_, ?_, ?_⟩ <;>
    intro a b <;> cases a <;> cases b <;>
      simp [Postgres.health_check, Mongo.health_check, Redis.health_check,
        Cassandra.health_check]

/-- Witness for C9: each adapter's `health_check` evaluated on a succeeding
probe and on a faulting one. -/
theorem C9_health_check_total_boolean_witness :
    Postgres.health_check (Except.ok ()) (Except.ok ()) = true ∧
    Mongo.health_check (Except.ok ()) (Except.error "refused") ≠ true ∧
    Redis.health_check (Except.error "refused") (Except.ok ()) ≠ true ∧
    Cassandra.health_check (Except.ok ()) (Except.ok ()) = true := by
  refine ⟨?_, ?_, ?_, ?_⟩
  · exact (C9_health_check_total_boolean.1 _ _).mpr ⟨rfl, rfl⟩
  · intro hc
    have := (C9_health_check_total_boolean.2.1 _ _).mp hc
    simpa using this.2
  · intro hc
    have := (C9_health_check_total_boolean.2.2.1 _ _).mp hc
    simpa using this.1
  · exact (C9_health_check_total_boolean.2.2.2 _ _).mpr ⟨rfl, rfl⟩

/-- C1: for each backend adapter and every valid `CreateUser`, from any
store state, `create` followed by `find_by_id` on the returned `User`'s id
yields that same `User`.  The generated native id is assumed fresh (a
colliding `uuid7`/`ObjectId` would violate the stores' key constraints) and
in range of the 128-bit / 96-bit codomain of the generators. -/
theorem C1_create_find_by_id_roundtrip :
    (∀ (st : Postgres.Store) (gid : Nat) (d : CreateUser), d.Valid → gid < 16 ^ 32 →
      st gid = none →
      Postgres.find_by_id (Postgres.create st gid d).2 (Postgres.create st gid d).1.id
        = some (Postgres.create st gid d).1) ∧
    (∀ (st : Mongo.Store) (gid : Nat) (d : CreateUser), d.Valid → gid < 16 ^ 24 →
      st gid = none →
      Mongo.find_by_id (Mongo.create st gid d).2 (Mongo.create st gid d).1.id
        = some (Mongo.create st gid d).1) ∧
    (∀ (st : Redis.Store) (gid : String) (d : CreateUser), d.Valid →
      st (Redis.key gid) = none →
      Redis.find_by_id (Redis.create st gid d).2 (Redis.create st gid d).1.id
        = some (Redis.create st gid d).1) ∧
    (∀ (st : Cassandra.Store) (gid : Nat) (d : CreateUser), d.Valid → gid < 16 ^ 32 →
      st gid = none →
      Cassandra.find_by_id (Cassandra.create st gid d).2 (Cassandra.create st gid d).1.id
        = some (Cassandra.create st gid d).1) := by
  refine ⟨?_, ?_, ?_, ?_⟩
  · intro st gid d _hv hlt _hfresh
    have hp : parse_uuid (strUuid gid) = some gid := parse_uuid_strUuid gid hlt
    simp [Postgres.create, Postgres.find_by_id, Postgres.to_user, hp]
  · intro st gid d _hv hlt _hfresh
    have hp : parse_object_id (strObjectId gid) = some gid := parse_object_id_strObjectId gid hlt
    simp [Mongo.create, Mongo.find_by_id, Mongo.to_user, build_user, hp]
  · intro st gid d hv hfresh
    cases hf : d.favoriteNumber with
    | none =>
      simp [Redis.create, Redis.find_by_id, build_user, hfresh, hf, mergeField]
    | some n =>
      have hn : n ∈ d.favoriteNumber := by rw [Option.mem_def, hf]
      have hb := hv.2 n hn
      have hr : pyIntParse (toString n) = some n := pyIntParse_toString n hb.1 hb.2
      simp [Redis.create, Redis.find_by_id, build_user, hfresh, hf, mergeField, hr]
  · intro st gid d _hv hlt hfresh
    have hp : parse_uuid (strUuid gid) = some gid := parse_uuid_strUuid gid hlt
    cases hf : d.favoriteNumber with
    | some n => simp [Cassandra.create, Cassandra.find_by_id, hp, hf]
    | none => simp [Cassandra.create, Cassandra.find_by_id, hp, hf, hfresh]

/-- Witness for C1: the spec's concrete scenario payload created on each
backend over the empty store. -/
theorem C1_create_find_by_id_roundtrip_witness :
    (Postgres.find_by_id (Postgres.create (fun _ => none) 7 ⟨"Ada", "ada@x.io", some 42⟩).2
        (Postgres.create (fun _ => none) 7 ⟨"Ada", "ada@x.io", some 42⟩).1.id
      = some (Postgres.create (fun _ => none) 7 ⟨"Ada", "ada@x.io", some 42⟩).1) ∧
    (Mongo.find_by_id (Mongo.create (fun _ => none) 7 ⟨"Ada", "ada@x.io", some 42⟩).2
        (Mongo.create (fun _ => none) 7 ⟨"Ada", "ada@x.io", some 42⟩).1.id
      = some (Mongo.create (fun _ => none) 7 ⟨"Ada", "ada@x.io", some 42⟩).1) ∧
    (Redis.find_by_id (Redis.create (fun _ => none) "u7" ⟨"Ada", "ada@x.io", some 42⟩).2
        (Redis.create (fun _ => none) "u7" ⟨"Ada", "ada@x.io", some 42⟩).1.id
      = some (Redis.create (fun _ => none) "u7" ⟨"Ada", "ada@x.io", some 42⟩).1) ∧
    (Cassandra.find_by_id (Cassandra.create (fun _ => none) 7 ⟨"Ada", "ada@x.io", some 42⟩).2
        (Cassandra.create (fun _ => none) 7 ⟨"Ada", "ada@x.io", some 42⟩).1.id
      = some (Cassandra.create (fun _ => none) 7 ⟨"Ada", "ada@x.io", some 42⟩).1) := by
  have hv : (CreateUser.mk "Ada" "ada@x.io" (some 42)).Valid := by
    constructor
    · decide
    · intro n hn
      simp only [Option.mem_def, Option.some.injEq] at hn
      omega
  refine ⟨?_, ?_, ?_, ?_⟩
  · exact C1_create_find_by_id_roundtrip.1 _ 7 _ hv (by norm_num) rfl
  · exact C1_create_find_by_id_roundtrip.2.1 _ 7 _ hv (by norm_num) rfl
  · exact C1_create_find_by_id_roundtrip.2.2.1 _ "u7" _ hv rfl
  · exact C1_create_find_by_id_roundtrip.2.2.2 _ 7 _ hv (by norm_num) rfl

/-- C4: for every backend adapter, `delete` returns `true` exactly when a
user with the given id existed (an unparsable or absent id gives `false`,
never a fault) and the row is removed; and after a `create`, deleting the
returned id succeeds once and a second `delete` of the same id returns
`false`. -/
theorem C4_delete_true_iff_existed :
    (∀ (st : Postgres.Store) (s : String),
      ((Postgres.delete st s).1 = true ↔ ∃ u, parse_uuid s = some u ∧ (st u).isSome) ∧
      ∀ u, parse_uuid s = some u → (Postgres.delete st s).2 u = none) ∧
    (∀ (st : Mongo.Store) (s : String),
      ((Mongo.delete st s).1 = true ↔ ∃ oid, parse_object_id s = some oid ∧ (st oid).isSome) ∧
      ∀ oid, parse_object_id s = some oid → (Mongo.delete st s).2 oid = none) ∧
    (∀ (st : Redis.Store) (id : String),
      ((Redis.delete st id).1 = true ↔ (st (Redis.key id)).isSome) ∧
      (Redis.delete st id).2 (Redis.key id) = none) ∧
    (∀ (st : Cassandra.Store) (s : String),
      ((Cassandra.delete st s).1 = true ↔ ∃ u, parse_uuid s = some u ∧ (st u).isSome) ∧
      ∀ u, parse_uuid s = some u → (Cassandra.delete st s).2 u = none) ∧
    (∀ (st : Postgres.Store) (gid : Nat) (d : CreateUser), gid < 16 ^ 32 →
      (Postgres.delete (Postgres.create st gid d).2 (Postgres.create st gid d).1.id).1 = true ∧
      (Postgres.delete
        (Postgres.delete (Postgres.create st gid d).2 (Postgres.create st gid d).1.id).2
        (Postgres.create st gid d).1.id).1 = false) ∧
    (∀ (st : Mongo.Store) (gid : Nat) (d : CreateUser), gid < 16 ^ 24 →
      (Mongo.delete (Mongo.create st gid d).2 (Mongo.create st gid d).1.id).1 = true ∧
      (Mongo.delete (Mongo.delete (Mongo.create st gid d).2 (Mongo.create st gid d).1.id).2
        (Mongo.create st gid d).1.id).1 = false) ∧
    (∀ (st : Redis.Store) (gid : String) (d : CreateUser),
      (Redis.delete (Redis.create st gid d).2 (Redis.create st gid d).1.id).1 = true ∧
      (Redis.delete (Redis.delete (Redis.create st gid d).2 (Redis.create st gid d).1.id).2
        (Redis.create st gid d).1.id).1 = false) ∧
    (∀ (st : Cassandra.Store) (gid : Nat) (d : CreateUser), gid < 16 ^ 32 →
      (Cassandra.delete (Cassandra.create st gid d).2 (Cassandra.create st gid d).1.id).1 = true ∧
      (Cassandra.delete
        (Cassandra.delete (Cassandra.create st gid d).2 (Cassandra.create st gid d).1.id).2
        (Cassandra.create st gid d).1.id).1 = false) := by
  refine ⟨?_, ?_, ?_, ?_, ?_, ?_, ?_, ?_⟩
  · intro st s
    constructor
    · cases hp : parse_uuid s with
      | none => simp [Postgres.delete, hp]
      | some u =>
        cases hs : st u with
        | none => simp [Postgres.delete, hp, hs]
        | some row => simp [Postgres.delete, hp, hs]
    · intro u hp
      cases hs : st u with
      | none => simp [Postgres.delete, hp, hs]
      | some row => simp [Postgres.delete, hp, hs]
  · intro st s
    constructor
    · cases hp : parse_object_id s with
      | none => simp [Mongo.delete, hp]
      | some oid =>
        cases hs : st oid with
        | none => simp [Mongo.delete, hp, hs]
        | some doc => simp [Mongo.delete, hp, hs]
    · intro oid hp
      cases hs : st oid with
      | none => simp [Mongo.delete, hp, hs]
      | some doc => simp [Mongo.delete, hp, hs]
  · intro st id
    constructor
    · cases hs : st (Redis.key id) with
      | none => simp [Redis.delete, hs]
      | some h => simp [Redis.delete, hs]
    · cases hs : st (Redis.key id) with
      | none => simp [Redis.delete, hs]
      | some h => simp [Redis.delete, hs]
  · intro st s
    constructor
    · cases hp : parse_uuid s with
      | none => simp [Cassandra.delete, hp]
      | some u =>
        cases hs : st u with
        | none => simp [Cassandra.delete, hp, hs]
        | some row => simp [Cassandra.delete, hp, hs]
    · intro u hp
      cases hs : st u with
      | none => simp [Cassandra.delete, hp, hs]
      | some row => simp [Cassandra.delete, hp, hs]
  · intro st gid d hlt
    have hp : parse_uuid (strUuid gid) = some gid := parse_uuid_strUuid gid hlt
    simp [Postgres.create, Postgres.delete, Postgres.to_user, hp]
  · intro st gid d hlt
    have hp : parse_object_id (strObjectId gid) = some gid := parse_object_id_strObjectId gid hlt
    simp [Mongo.create, Mongo.delete, build_user, hp]
  · intro st gid d
    simp [Redis.create, Redis.delete, build_user]
  · intro st gid d hlt
    have hp : parse_uuid (strUuid gid) = some gid := parse_uuid_strUuid gid hlt
    cases hf : d.favoriteNumber with
    | some n => simp [Cassandra.create, Cassandra.delete, hp, hf]
    | none => simp [Cassandra.create, Cassandra.delete, hp, hf]

/-- Witness for C4: concrete deletions over the empty store and the spec's
scenario payload created then deleted twice on each backend. -/
theorem C4_delete_true_iff_existed_witness :
    ((Postgres.delete (fun _ => none) "not-a-valid-id-format").1 = false) ∧
    ((Mongo.delete (fun _ => none) "not-a-valid-id-format").1 = false) ∧
    ((Redis.delete (fun _ => none) "ghost").1 = false) ∧
    ((Cassandra.delete (fun _ => none) "not-a-valid-id-format").1 = false) ∧
    ((Postgres.delete (Postgres.create (fun _ => none) 7 ⟨"Ada", "ada@x.io", some 42⟩).2
        (Postgres.create (fun _ => none) 7 ⟨"Ada", "ada@x.io", some 42⟩).1.id).1 = true) ∧
    ((Mongo.delete (Mongo.create (fun _ => none) 7 ⟨"Ada", "ada@x.io", some 42⟩).2
        (Mongo.create (fun _ => none) 7 ⟨"Ada", "ada@x.io", some 42⟩).1.id).1 = true) ∧
    ((Redis.delete (Redis.create (fun _ => none) "u7" ⟨"Ada", "ada@x.io", some 42⟩).2
        (Redis.create (fun _ => none) "u7" ⟨"Ada", "ada@x.io", some 42⟩).1.id).1 = true) ∧
    ((Cassandra.delete (Cassandra.create (fun _ => none) 7 ⟨"Ada", "ada@x.io", some 42⟩).2
        (Cassandra.create (fun _ => none) 7 ⟨"Ada", "ada@x.io", some 42⟩).1.id).1 = true) := by
  refine ⟨?_, ?_, ?_, ?_, ?_, ?_, ?_, ?_⟩
  · have h := (C4_delete_true_iff_existed.1 (fun _ => none) "not-a-valid-id-format").1
    simp only [Bool.not_eq_true] at h ⊢
    cases hb : (Postgres.delete (fun _ => none) "not-a-valid-id-format").1
    · rfl
    · exact absurd (h.mp hb) (by decide)
  · have h := (C4_delete_true_iff_existed.2.1 (fun _ => none) "not-a-valid-id-format").1
    cases hb : (Mongo.delete (fun _ => none) "not-a-valid-id-format").1
    · rfl
    · exact absurd (h.mp hb) (by decide)
  · have h := (C4_delete_true_iff_existed.2.2.1 (fun _ => none) "ghost").1
    cases hb : (Redis.delete (fun _ => none) "ghost").1
    · rfl
    · exact absurd (h.mp hb) (by decide)
  · have h := (C4_delete_true_iff_existed.2.2.2.1 (fun _ => none) "not-a-valid-id-format").1
    cases hb : (Cassandra.delete (fun _ => none) "not-a-valid-id-format").1
    · rfl
    · exact absurd (h.mp hb) (by decide)
  · exact (C4_delete_true_iff_existed.2.2.2.2.1 (fun _ => none) 7 ⟨"Ada", "ada@x.io", some 42⟩
      (by norm_num)).1
  · exact (C4_delete_true_iff_existed.2.2.2.2.2.1 (fun _ => none) 7 ⟨"Ada", "ada@x.io", some 42⟩
      (by norm_num)).1
  · exact (C4_delete_true_iff_existed.2.2.2.2.2.2.1 (fun _ => none) "u7"
      ⟨"Ada", "ada@x.io", some 42⟩).1
  · exact (C4_delete_true_iff_existed.2.2.2.2.2.2.2 (fun _ => none) 7 ⟨"Ada", "ada@x.io", some 42⟩
      (by norm_num)).1

/-- C8: for every backend adapter and every existing user, `update` with a
patch setting only `favoriteNumber` to a valid value changes exactly that
field: the returned user and the stored row keep their `name`, `email` and
key, and every other key of the store is untouched. -/
theorem C8_update_favorite_number_frame :
    (∀ (st : Postgres.Store) (u : Nat) (row : Postgres.Row) (n : Int), u < 16 ^ 32 →
      st u = some row → 0 ≤ n → n ≤ 100 →
      (Postgres.update st (strUuid u) ⟨none, none, some n⟩).1
          = some ⟨strUuid u, row.name, row.email, some n⟩ ∧
      (Postgres.update st (strUuid u) ⟨none, none, some n⟩).2 u
          = some ⟨row.name, row.email, some n⟩ ∧
      ∀ k, k ≠ u → (Postgres.update st (strUuid u) ⟨none, none, some n⟩).2 k = st k) ∧
    (∀ (st : Mongo.Store) (oid : Nat) (doc : Mongo.Doc) (n : Int), oid < 16 ^ 24 →
      st oid = some doc → 0 ≤ n → n ≤ 100 →
      (Mongo.update st (strObjectId oid) ⟨none, none, some n⟩).1
          = some ⟨strObjectId oid, doc.name, doc.email, some n⟩ ∧
      (Mongo.update st (strObjectId oid) ⟨none, none, some n⟩).2 oid
          = some ⟨doc.name, doc.email, some n⟩ ∧
      ∀ k, k ≠ oid → (Mongo.update st (strObjectId oid) ⟨none, none, some n⟩).2 k = st k) ∧
    (∀ (st : Redis.Store) (id : String) (h : Redis.Hash) (nm em : String) (n : Int),
      st (Redis.key id) = some h → h.name = some nm → h.email = some em → 0 ≤ n → n ≤ 100 →
      (Redis.update st id ⟨none, none, some n⟩).1 = some ⟨id, nm, em, some n⟩ ∧
      (Redis.update st id ⟨none, none, some n⟩).2 (Redis.key id)
          = some ⟨some nm, some em, some (toString n)⟩ ∧
      ∀ k, k ≠ Redis.key id → (Redis.update st id ⟨none, none, some n⟩).2 k = st k) ∧
    (∀ (st : Cassandra.Store) (u : Nat) (row : Cassandra.Row) (n : Int), u < 16 ^ 32 →
      st u = some row → 0 ≤ n → n ≤ 100 →
      (Cassandra.update st (strUuid u) ⟨none, none, some n⟩).1
          = some ⟨strUuid u, row.name, row.email, some n⟩ ∧
      (Cassandra.update st (strUuid u) ⟨none, none, some n⟩).2 u
          = some ⟨row.name, row.email, some n⟩ ∧
      ∀ k, k ≠ u → (Cassandra.update st (strUuid u) ⟨none, none, some n⟩).2 k = st k) := by
  refine ⟨?_, ?_, ?_, ?_⟩
  · intro st u row n hlt hs _h0 _h1
    have hp : parse_uuid (strUuid u) = some u := parse_uuid_strUuid u hlt
    refine ⟨?_, ?_, ?_⟩
    · simp [Postgres.update, Postgres.to_user, hp, hs, mergeField]
    · simp [Postgres.update, hp, hs, mergeField]
    · intro k hk
      simp [Postgres.update, hp, hs, mergeField, hk]
  · intro st oid doc n hlt hs _h0 _h1
    have hp : parse_object_id (strObjectId oid) = some oid := parse_object_id_strObjectId oid hlt
    refine ⟨?_, ?_, ?_⟩
    · simp [Mongo.update, Mongo.to_user, hp, hs, mergeField]
    · simp [Mongo.update, hp, hs, mergeField]
    · intro k hk
      simp [Mongo.update, hp, hs, mergeField, hk]
  · intro st id h nm em n hst hn he h0 h1
    have hr : pyIntParse (toString n) = some n := pyIntParse_toString n h0 h1
    refine ⟨?_, ?_, ?_⟩
    · simp [Redis.update, Redis.find_by_id, hst, hn, he, mergeField, hr]
    · simp [Redis.update, hst, hn, he, mergeField]
    · intro k hk
      simp [Redis.update, hst, mergeField, hk]
  · intro st u row n hlt hs _h0 _h1
    have hp : parse_uuid (strUuid u) = some u := parse_uuid_strUuid u hlt
    refine ⟨?_, ?_, ?_⟩
    · simp [Cassandra.update, hp, hs, mergeField]
    · simp [Cassandra.update, hp, hs, mergeField]
    · intro k hk
      simp [Cassandra.update, hp, hs, mergeField, hk]

/-- Witness for C8: the spec's scenario patch `favoriteNumber := 7` applied
to a stored `Ada` row on each backend, plus one frame instance. -/
theorem C8_update_favorite_number_frame_witness :
    ((Postgres.update (fun k => if k = 7 then some ⟨"Ada", "ada@x.io", some 42⟩ else none)
        (strUuid 7) ⟨none, none, some 9⟩).1 = some ⟨strUuid 7, "Ada", "ada@x.io", some 9⟩) ∧
    ((Mongo.update (fun k => if k = 7 then some ⟨"Ada", "ada@x.io", some 42⟩ else none)
        (strObjectId 7) ⟨none, none, some 9⟩).1
      = some ⟨strObjectId 7, "Ada", "ada@x.io", some 9⟩) ∧
    ((Redis.update (fun k => if k = Redis.key "u7" then some ⟨some "Ada", some "ada@x.io", some "42"⟩
        else none) "u7" ⟨none, none, some 9⟩).1 = some ⟨"u7", "Ada", "ada@x.io", some 9⟩) ∧
    ((Cassandra.update (fun k => if k = 7 then some ⟨"Ada", "ada@x.io", some 42⟩ else none)
        (strUuid 7) ⟨none, none, some 9⟩).1 = some ⟨strUuid 7, "Ada", "ada@x.io", some 9⟩) ∧
    ((Postgres.update (fun k => if k = 7 then some ⟨"Ada", "ada@x.io", some 42⟩ else none)
        (strUuid 7) ⟨none, none, some 9⟩).2 8 = none) := by
  refine ⟨?_, ?_, ?_, ?_, ?_⟩
  · exact (C8_update_favorite_number_frame.1 _ 7 ⟨"Ada", "ada@x.io", some 42⟩ 9 (by norm_num)
      (by simp) (by norm_num) (by norm_num)).1
  · exact (C8_update_favorite_number_frame.2.1 _ 7 ⟨"Ada", "ada@x.io", some 42⟩ 9 (by norm_num)
      (by simp) (by norm_num) (by norm_num)).1
  · exact (C8_update_favorite_number_frame.2.2.1 _ "u7" ⟨some "Ada", some "ada@x.io", some "42"⟩
      "Ada" "ada@x.io" 9 (by simp) rfl rfl (by norm_num) (by norm_num)).1
  · exact (C8_update_favorite_number_frame.2.2.2 _ 7 ⟨"Ada", "ada@x.io", some 42⟩ 9 (by norm_num)
      (by simp) (by norm_num) (by norm_num)).1
  · have h := (C8_update_favorite_number_frame.1
      (fun k => if k = 7 then some ⟨"Ada", "ada@x.io", some 42⟩ else none) 7
      ⟨"Ada", "ada@x.io", some 42⟩ 9 (by norm_num) (by simp) (by norm_num) (by norm_num)).2.2
      8 (by norm_num)
    rw [h]
    simp

theorem resolveStep_countTag (st : RegState) (t tag : String) (h : countTag st tag ≤ 1) :
    countTag (resolveStep st t) tag ≤ 1 := by
  by_cases hm : t ∈ DATABASE_TYPES
  · have hm4 : t = "postgres" ∨ t = "mongodb" ∨ t = "redis" ∨ t = "cassandra" := by
      simpa [DATABASE_TYPES] using hm
    cases hlk : st.repos.lookup t with
    | some r =>
      simp [resolveStep, resolve_repository, get_repository, hm, hlk, h]
    | none =>
      have hcount : countTag st t = 0 := lookup_none_count st.repos t hlk
      have hins : countTag ⟨st.repos ++ [(t, st.nextInst)], st.nextInst + 1⟩ tag
          = countTag st tag + (if tag = t then 1 else 0) := by
        simpa [countTag] using count_append_tag st.repos t tag st.nextInst
      have hgoal : countTag (insertRepo st t) tag ≤ 1 := by
        rw [insertRepo, hins]
        by_cases htag : tag = t
        · subst htag
          simp [hcount]
        · simp [htag]
          exact h
      rcases hm4 with h4 | h4 | h4 | h4 <;> subst h4 <;>
        simpa [resolveStep, resolve_repository, get_repository, hm, hlk] using hgoal
  · simp [resolveStep, resolve_repository, hm, h]

theorem runResolves_countTag (tags : List String) :
    ∀ (st : RegState), (∀ tag, countTag st tag ≤ 1) →
      ∀ tag, countTag (runResolves tags st) tag ≤ 1 := by
  induction tags with
  | nil => intro st h tag; exact h tag
  | cons t rest ih =>
    intro st h tag
    exact ih (resolveStep st t) (fun tg => resolveStep_countTag st t tg (h tg)) tag

/-- C5: the registry memoizes one adapter per backend tag: a registered tag
is returned as is with no construction and no state change, the first call
for a valid tag constructs and inserts exactly the next instance, a repeat
call after a successful resolve returns the identical instance unchanged,
and along any sequence of calls from the start state (every schedule of
calls runs as such a sequence, since `get_repository` has no suspension
point) each tag holds at most one instance. -/
theorem C5_registry_at_most_one_instance :
    (∀ (tag : String) (st : RegState) (repo : Nat), st.repos.lookup tag = some repo →
      get_repository tag st = Except.ok (repo, st)) ∧
    (∀ (tag : String) (st : RegState), tag ∈ DATABASE_TYPES → st.repos.lookup tag = none →
      get_repository tag st = Except.ok (st.nextInst, insertRepo st tag)) ∧
    (∀ (tag : String) (st st' : RegState) (repo : Nat),
      resolve_repository tag st = Except.ok (some repo, st') →
      resolve_repository tag st' = Except.ok (some repo, st')) ∧
    (∀ (tags : List String) (tag : String), countTag (runResolves tags regStart) tag ≤ 1) := by
  refine ⟨?_, ?_, ?_, ?_⟩
  · intro tag st repo h
    simp [get_repository, h]
  · intro tag st hm hlk
    have hm4 : tag = "postgres" ∨ tag = "mongodb" ∨ tag = "redis" ∨ tag = "cassandra" := by
      simpa [DATABASE_TYPES] using hm
    rcases hm4 with h4 | h4 | h4 | h4 <;> subst h4 <;> simp [get_repository, hlk]
  · intro tag st st' repo hres
    by_cases hm : tag ∈ DATABASE_TYPES
    · cases hlk : st.repos.lookup tag with
      | some r =>
        rw [resolve_repository, if_pos hm, get_repository, hlk] at hres
        obtain ⟨h1, h2⟩ : some r = some repo ∧ st = st' := by
          constructor <;> [exact congrArg Prod.fst (Except.ok.inj hres);
            exact congrArg Prod.snd (Except.ok.inj hres)]
        obtain rfl : r = repo := Option.some.inj h1
        subst h2
        rw [resolve_repository, if_pos hm, get_repository, hlk]
      | none =>
        have hm4 : tag = "postgres" ∨ tag = "mongodb" ∨ tag = "redis" ∨ tag = "cassandra" := by
          simpa [DATABASE_TYPES] using hm
        have hget : get_repository tag st = Except.ok (st.nextInst, insertRepo st tag) := by
          rcases hm4 with h4 | h4 | h4 | h4 <;> subst h4 <;> simp [get_repository, hlk]
        rw [resolve_repository, if_pos hm, hget] at hres
        obtain ⟨h1, h2⟩ : some st.nextInst = some repo ∧ insertRepo st tag = st' := by
          constructor <;> [exact congrArg Prod.fst (Except.ok.inj hres);
            exact congrArg Prod.snd (Except.ok.inj hres)]
        obtain rfl : st.nextInst = repo := Option.some.inj h1
        subst h2
        have hlk' : (insertRepo st tag).repos.lookup tag = some st.nextInst :=
          lookup_append_self st.repos tag st.nextInst hlk
        rw [resolve_repository, if_pos hm, get_repository, hlk']
    · rw [resolve_repository, if_neg hm] at hres
      cases Except.ok.inj hres
  · intro tags tag
    refine runResolves_countTag tags regStart (fun tg => ?_) tag
    simp [countTag, regStart]

/-- Witness for C5: a cold resolve of `"postgres"` constructs instance 0
and registers it, a second resolve returns the same instance with the state
unchanged, and a two-call schedule leaves at most one instance for the
tag. -/
theorem C5_registry_at_most_one_instance_witness :
    get_repository "postgres" regStart
        = Except.ok (regStart.nextInst, insertRepo regStart "postgres") ∧
    resolve_repository "postgres" (insertRepo regStart "postgres")
        = Except.ok (some 0, insertRepo regStart "postgres") ∧
    countTag (runResolves ["postgres", "postgres"] regStart) "postgres" ≤ 1 := by
  refine ⟨?_, ?_, ?_⟩
  · exact C5_registry_at_most_one_instance.2.1 "postgres" regStart (by decide) rfl
  · exact C5_registry_at_most_one_instance.2.2.1 "postgres" regStart
      (insertRepo regStart "postgres") 0 rfl
  · exact C5_registry_at_most_one_instance.2.2.2 ["postgres", "postgres"] "postgres"

theorem disconnectLoop_all_ok (beh : Nat → Except String Unit) :
    ∀ (l : List (String × Nat)) (done : List Nat),
      (∀ r ∈ l.map Prod.snd, beh r = Except.ok ()) →
      disconnectLoop beh l done = (Except.ok (), done ++ l.map Prod.snd) := by
  intro l
  induction l with
  | nil => intro done _h; simp [disconnectLoop]
  | cons p rest ih =>
    intro done h
    obtain ⟨k, r⟩ := p
    have hr : beh r = Except.ok () := h r (by simp)
    have hrest : ∀ x ∈ rest.map Prod.snd, beh x = Except.ok () := by
      intro x hx
      exact h x (by simp [hx])
    simp only [disconnectLoop, hr]
    rw [ih (done ++ [r]) hrest]
    simp

/-- Disconnect behavior used as a C6 counterexample: the first constructed
adapter faults, the second disconnects cleanly. -/
def faultyBeh : Nat → Except String Unit :=
  fun r => if r = 0 then Except.error "boom" else Except.ok ()

/-- A registry state with the postgres and mongodb adapters constructed. -/
def twoRepoState : RegState := ⟨[("postgres", 0), ("mongodb", 1)], 2⟩

/-- Counterexample to C6 as claimed: when the first adapter's `disconnect`
raises, `disconnect_databases` propagates the fault, the second adapter's
`disconnect` is never called (the disconnected list is empty even though
instance 1 would have succeeded), and the registry is not cleared. -/
theorem C6_counterexample_fault_aborts_loop :
    (disconnect_databases faultyBeh twoRepoState).outcome = Except.error "boom" ∧
    (disconnect_databases faultyBeh twoRepoState).disconnected = [] ∧
    (disconnect_databases faultyBeh twoRepoState).final = twoRepoState := by
  refine ⟨rfl, rfl, rfl⟩

/-- C6 amended: `disconnect_databases` calls `disconnect` on every
constructed adapter sequentially in registry order and, when all disconnects
succeed, clears the registry; adapters never constructed are simply absent
and are skipped; but a fault raised by one adapter's disconnect propagates,
so the remaining adapters are not disconnected and the registry is left
unchanged. -/
theorem C6_disconnect_sequential_then_clear :
    (∀ (beh : Nat → Except String Unit) (st : RegState),
      (∀ r ∈ st.repos.map Prod.snd, beh r = Except.ok ()) →
      disconnect_databases beh st
        = ⟨Except.ok (), ⟨[], st.nextInst⟩, st.repos.map Prod.snd⟩) ∧
    (∀ (beh : Nat → Except String Unit) (st : RegState) (e : String),
      (disconnect_databases beh st).outcome = Except.error e →
      (disconnect_databases beh st).final = st) := by
  constructor
  · intro beh st h
    rw [disconnect_databases, disconnectLoop_all_ok beh st.repos [] h]
    simp
  · intro beh st e hout
    rw [disconnect_databases] at hout ⊢
    cases hloop : disconnectLoop beh st.repos [] with
    | mk outcome done =>
      rw [hloop] at hout
      cases outcome with
      | ok u => simp at hout
      | error e2 => rfl

/-- Witness for C6 (amended): an all-clean two-adapter registry disconnects
both instances in order and is cleared, and the counterexample run's fault
leaves the registry untouched. -/
theorem C6_disconnect_sequential_then_clear_witness :
    disconnect_databases (fun _ => Except.ok ()) twoRepoState
        = ⟨Except.ok (), ⟨[], 2⟩, [0, 1]⟩ ∧
    (disconnect_databases faultyBeh twoRepoState).final = twoRepoState := by
  constructor
  · have h := C6_disconnect_sequential_then_clear.1 (fun _ => Except.ok ()) twoRepoState
      (fun r _ => rfl)
    rw [h]
    rfl
  · exact C6_disconnect_sequential_then_clear.2 faultyBeh twoRepoState "boom" rfl

/-- C10: the `ValueError` branch of `get_repository` is unreachable through
`resolve_repository`: every tag in `DATABASE_TYPES` takes a constructing
branch of `get_repository`, and `resolve_repository` returns a normal value
for every string input instead of raising. -/
theorem C10_resolve_repository_never_raises :
    (∀ (database : String) (st : RegState), database ∈ DATABASE_TYPES →
      ∃ v, get_repository database st = Except.ok v) ∧
    (∀ (database : String) (st : RegState),
      ∃ v, resolve_repository database st = Except.ok v) := by
  have hget : ∀ (database : String) (st : RegState), database ∈ DATABASE_TYPES →
      ∃ v, get_repository database st = Except.ok v := by
    intro database st hm
    cases hlk : st.repos.lookup database with
    | some r => exact ⟨(r, st), by simp [get_repository, hlk]⟩
    | none =>
      have hm4 : database = "postgres" ∨ database = "mongodb" ∨ database = "redis" ∨
          database = "cassandra" := by
        simpa [DATABASE_TYPES] using hm
      refine ⟨(st.nextInst, insertRepo st database), ?_⟩
      rcases hm4 with h4 | h4 | h4 | h4 <;> subst h4 <;> simp [get_repository, hlk]
  refine ⟨hget, ?_⟩
  intro database st
  by_cases hm : database ∈ DATABASE_TYPES
  · obtain ⟨⟨repo, st'⟩, hv⟩ := hget database st hm
    exact ⟨(some repo, st'), by rw [resolve_repository, if_pos hm, hv]⟩
  · exact ⟨(none, st), by rw [resolve_repository, if_neg hm]⟩

/-- Witness for C10: both parts at concrete inputs, a known tag and an
unknown one. -/
theorem C10_resolve_repository_never_raises_witness :
    (∃ v, get_repository "cassandra" regStart = Except.ok v) ∧
    (∃ v, resolve_repository "not-a-backend" regStart = Except.ok v) := by
  constructor
  · exact C10_resolve_repository_never_raises.1 "cassandra" regStart (by decide)
  · exact C10_resolve_repository_never_raises.2 "not-a-backend" regStart
